import Mathlib

/-!
Verification development for the OBJ exchange module (`geomdl/exchange/obj.py`).

The OBJ import parser and export serializer are embedded shallowly:
the line-processing loop of `import_obj` becomes an explicit state machine,
and `export_obj_str` becomes a fold over the surfaces with an explicit
accumulator record.  External collaborators that are not part of the module
(the entity records, the tessellator, the surface-normal evaluator) are
modelled from the specification as opaque data and function parameters.
-/

namespace ObjExchange

/-! ### Python string primitives

The importer relies on Python's `str.strip()` and `str.split(sep)` with an
explicit single-character separator (`" "` for tokens, `"\n"` for lines).
These are reproduced here on `List Char`. -/

/-- Characters Python's `str.strip()` removes (ASCII whitespace). -/
def isPySpace (c : Char) : Bool :=
  c == ' ' || c == '\t' || c == '\n' || c == '\r' || c == '\x0b' || c == '\x0c'

/-- Python `str.strip()` on a character list: drop leading and trailing
whitespace. -/
def pyStripList (cs : List Char) : List Char :=
  ((cs.dropWhile isPySpace).reverse.dropWhile isPySpace).reverse

/-- Python `str.strip()`. -/
def pyStrip (s : String) : String :=
  String.mk (pyStripList s.data)

/-- Python `str.split(sep)` for a one-character separator: splits at every
occurrence of the separator and keeps empty pieces, so the result is always
non-empty. -/
def splitOnChar (sep : Char) : List Char → List (List Char)
  | [] => [[]]
  | c :: rest =>
    match splitOnChar sep rest with
    | [] => [[]]
    | t :: ts => if c == sep then [] :: t :: ts else (c :: t) :: ts

/-- Digit-string value, `none` on the empty string or any non-digit. -/
def parseDigits (cs : List Char) : Option Nat :=
  if cs.isEmpty then none
  else if cs.all Char.isDigit then
    some (cs.foldl (fun a c => a * 10 + (c.toNat - 48)) 0)
  else none

/-- Python `int(token)` on an already-stripped token: an optional sign
followed by decimal digits; anything else raises `ValueError` (`none`). -/
def parsePyInt (s : String) : Option Int :=
  match s.data with
  | '-' :: rest => (parseDigits rest).map (fun n => -(n : Int))
  | '+' :: rest => (parseDigits rest).map (fun n => (n : Int))
  | cs => (parseDigits cs).map (fun n => (n : Int))

/-- Python list indexing `xs[i]`: a negative `i` counts from the end of the
list; an index out of range on either side is an `IndexError` (`none`). -/
def pyIndex {α : Type} (xs : List α) (i : Int) : Option α :=
  if i < 0 then
    if (xs.length : Int) + i < 0 then none else xs.get? ((xs.length : Int) + i).toNat
  else xs.get? i.toNat

/-! ### Entity model

Modelled from the spec: the `entity` module (Vertex, Triangle, Face records)
is an external collaborator not under `src/`.  Per the spec's data model, a
Vertex carries an identifier and coordinates, a Triangle an identifier and an
ordered list of vertex references, a Face an identifier and an ordered list
of triangles.  Coordinates are kept as the raw numeral tokens handed to the
constructor, since numeric conversion lives in the external entity module. -/

/-- Modelled from the spec: `entity.Vertex` — identifier plus the coordinate
tokens passed positionally (`entity.Vertex(*data[1:], id=...)`). -/
structure Vertex where
  vid : Nat
  coords : List String
deriving DecidableEq

/-- Modelled from the spec: `entity.Triangle` — identifier plus the ordered
vertex references passed positionally. -/
structure Triangle where
  tid : Nat
  verts : List Vertex
deriving DecidableEq

/-- Modelled from the spec: `entity.Face` — identifier plus the ordered
triangles passed positionally (`entity.Face(*triangles, id=...)`). -/
structure Face where
  fid : Nat
  tris : List Triangle
deriving DecidableEq

/-! ### Import (`import_obj`) -/

/-- The Python exceptions the import loop can raise: `ValueError` from
`int(fidx)` and `IndexError` from `vertices[...]`. -/
inductive ImpErr where
  | valueError
  | indexError
deriving DecidableEq

/-- The mutable state of `import_obj`'s line loop. -/
structure ImpState where
  on_face : Bool
  vertices : List Vertex
  triangles : List Triangle
  faces : List Face
  vert_idx : Nat
  tri_idx : Nat
  face_idx : Nat
deriving DecidableEq

/-- Initial loop state of `import_obj`. -/
def initImpState : ImpState :=
  { on_face := false, vertices := [], triangles := [], faces := []
    vert_idx := 1, tri_idx := 1, face_idx := 1 }

/-- `carr = carr.strip(); data = carr.split(" "); data = [d.strip() for d in data]`. -/
def lineTokens (l : String) : List String :=
  (splitOnChar ' ' (pyStripList l.data)).map (fun cs => String.mk (pyStripList cs))

/-- `[vertices[int(fidx) - 1] for fidx in data[1:]]`: resolve the face-line
index tokens left to right; the first `ValueError`/`IndexError` aborts. -/
def resolveAll (vs : List Vertex) : List String → Except ImpErr (List Vertex)
  | [] => Except.ok []
  | t :: ts =>
    match parsePyInt t with
    | none => Except.error ImpErr.valueError
    | some i =>
      match pyIndex vs (i - 1) with
      | none => Except.error ImpErr.indexError
      | some v =>
        match resolveAll vs ts with
        | Except.error e => Except.error e
        | Except.ok rest => Except.ok (v :: rest)

/-- The body of the `if on_face:` block on a `v` line: wrap the triangle
buffer into a Face, append it, clear both buffers and reset the local
counters. -/
def finalizeFace (st : ImpState) : ImpState :=
  { st with on_face := false
            faces := st.faces ++ [⟨st.face_idx, st.triangles⟩]
            face_idx := st.face_idx + 1
            vertices := []
            triangles := []
            vert_idx := 1
            tri_idx := 1 }

/-- Append `entity.Vertex(*data[1:], id=vert_idx)` to the vertex buffer. -/
def appendVertex (st : ImpState) (coords : List String) : ImpState :=
  { st with vertices := st.vertices ++ [⟨st.vert_idx, coords⟩]
            vert_idx := st.vert_idx + 1 }

/-- One iteration of `import_obj`'s loop, given the stripped tokens of the
line.  The source tests `data[0] == "v"` and `data[0] == "f"` in two separate
`if` statements; since a token cannot be both, this equals the `if`/`else if`
chain used here. -/
def processTokens (st : ImpState) (data : List String) : Except ImpErr ImpState :=
  if data.headD "" = "v" then
    Except.ok (appendVertex (if st.on_face then finalizeFace st else st) data.tail)
  else if data.headD "" = "f" then
    match resolveAll st.vertices data.tail with
    | Except.error e => Except.error e
    | Except.ok rv =>
      Except.ok { st with on_face := true
                          triangles := st.triangles ++ [⟨st.tri_idx, rv⟩]
                          tri_idx := st.tri_idx + 1 }
  else Except.ok st

/-- One iteration of the loop on a raw line. -/
def processLine (st : ImpState) (l : String) : Except ImpErr ImpState :=
  processTokens st (lineTokens l)

/-- The whole `for carr in content_arr:` loop. -/
def runLines : ImpState → List String → Except ImpErr ImpState
  | st, [] => Except.ok st
  | st, l :: ls =>
    match processLine st l with
    | Except.error e => Except.error e
    | Except.ok st' => runLines st' ls

/-- `import_obj` after the file has been split into lines: run the loop from
the initial state, then finalize one last Face if the triangle buffer is
non-empty. -/
def importLines (ls : List String) : Except ImpErr (List Face) :=
  match runLines initImpState ls with
  | Except.error e => Except.error e
  | Except.ok st =>
    if st.triangles.isEmpty then Except.ok st.faces
    else Except.ok (st.faces ++ [⟨st.face_idx, st.triangles⟩])

/-- `import_obj` on the file contents (`content.split("\n")` then the loop).
The default callback is the identity, so the result is the face list. -/
def import_obj (content : String) : Except ImpErr (List Face) :=
  importLines ((splitOnChar '\n' content.data).map String.mk)

/-! ### Export (`export_obj_str`)

The tessellator `tessellate.make_triangle_mesh` and the normal evaluator
`exc_helpers.surface_normal` are external collaborators not under `src/`;
they enter the embedding as function parameters with exactly the data the
call sites consume.  Numeric values that the serializer only ever passes to
`str(...)` (vertex positions, parametric coordinates, normal components,
evaluated points) are kept as their rendered strings, since their numeric
type lives outside the module. -/

/-- Modelled from the spec: a mesh vertex produced by the tessellator, with
a 3D position (`vert.x`, `vert.y`, `vert.z`) and a parametric coordinate
(`vert.uv`). -/
structure MeshVertex where
  x : String
  y : String
  z : String
  uv : String × String
deriving DecidableEq

/-- Modelled from the spec: a mesh triangle produced by the tessellator, an
index triple (`t.data`) of 0-based positions into the mesh vertex list. -/
structure MeshTriangle where
  data : Nat × Nat × Nat
deriving DecidableEq

/-- Modelled from the spec: the part of a surface the serializer reads — its
evaluated point grid (`srf.evalpts`) and sample counts (`srf.sample_size.u`,
`srf.sample_size.v`). -/
structure Surface where
  evalpts : List (List String)
  sample_size_u : Nat
  sample_size_v : Nat
deriving DecidableEq

/-- Modelled from the spec: the `surface` argument — a surface or a surface
container, with a parametric dimension (`surface.pdimension`) and the
surfaces iterated by `for srf in surface`. -/
structure SurfaceInput where
  pdimension : Nat
  surfaces : List Surface

/-- The keyword arguments of `export_obj_str` after extraction:
`vertex_spacing` has been through `int(...)`, the two flags are booleans. -/
structure ExportOpts where
  vertex_spacing : Int
  vertex_normals : Bool
  parametric_vertices : Bool

/-- Modelled from the spec: the type of
`tessellate.make_triangle_mesh(evalpts, sample_size_u, sample_size_v)` —
exactly the three arguments the call site passes, returning an ordered
vertex list and triangle index triples. -/
abbrev Tess : Type :=
  List (List String) → Nat → Nat → List MeshVertex × List MeshTriangle

/-- Modelled from the spec: the type of
`exc_helpers.surface_normal(srf, uv, True)` — the result `sn` is indexed as
`sn[1][0]`, `sn[1][1]`, `sn[1][2]`, so its second component is a normal
vector triple. -/
abbrev NormalFn : Type :=
  Surface → String × String → String × (String × String × String)

/-- The accumulators of `export_obj_str`'s surface loop. -/
structure ExpAcc where
  str_v : List String
  str_vn : List String
  str_vp : List String
  str_f : List String
  vertex_offset : Nat

/-- `"v " + str(vert.x) + " " + str(vert.y) + " " + str(vert.z) + "\n"`. -/
def vLine (vert : MeshVertex) : String :=
  "v " ++ vert.x ++ " " ++ vert.y ++ " " ++ vert.z ++ "\n"

/-- `"vp " + str(vert.uv[0]) + " " + str(vert.uv[1]) + "\n"`. -/
def vpLine (vert : MeshVertex) : String :=
  "vp " ++ vert.uv.1 ++ " " ++ vert.uv.2 ++ "\n"

/-- `"vn " + str(sn[1][0]) + " " + str(sn[1][1]) + " " + str(sn[1][2]) + "\n"`. -/
def vnLine (nf : NormalFn) (srf : Surface) (vert : MeshVertex) : String :=
  "vn " ++ (nf srf vert.uv).2.1 ++ " " ++ (nf srf vert.uv).2.2.1 ++ " "
    ++ (nf srf vert.uv).2.2.2 ++ "\n"

/-- `"f " + str(vl[0]+1+offset) + " " + str(vl[1]+1+offset) + " " + str(vl[2]+1+offset) + "\n"`. -/
def fLine (off : Nat) (t : MeshTriangle) : String :=
  "f " ++ toString (t.data.1 + 1 + off) ++ " " ++ toString (t.data.2.1 + 1 + off)
    ++ " " ++ toString (t.data.2.2 + 1 + off) ++ "\n"

/-- One iteration of the `for srf in surface:` loop: tessellate, collect the
`v` lines, optionally the `vp` and `vn` lines, the `f` lines against the
current `vertex_offset`, then set `vertex_offset = len(str_v)`. -/
def processSurface (tess : Tess) (nf : NormalFn) (opts : ExportOpts)
    (acc : ExpAcc) (srf : Surface) : ExpAcc :=
  { str_v := acc.str_v
      ++ ((tess srf.evalpts srf.sample_size_u srf.sample_size_v).1).map vLine
    str_vp := if opts.parametric_vertices then
        acc.str_vp
          ++ ((tess srf.evalpts srf.sample_size_u srf.sample_size_v).1).map vpLine
      else acc.str_vp
    str_vn := if opts.vertex_normals then
        acc.str_vn
          ++ ((tess srf.evalpts srf.sample_size_u srf.sample_size_v).1).map (vnLine nf srf)
      else acc.str_vn
    str_f := acc.str_f
      ++ ((tess srf.evalpts srf.sample_size_u srf.sample_size_v).2).map (fLine acc.vertex_offset)
    vertex_offset :=
      (acc.str_v
        ++ ((tess srf.evalpts srf.sample_size_u srf.sample_size_v).1).map vLine).length }

/-- The whole surface loop. -/
def exportLoop (tess : Tess) (nf : NormalFn) (opts : ExportOpts) :
    ExpAcc → List Surface → ExpAcc
  | acc, [] => acc
  | acc, srf :: srfs => exportLoop tess nf opts (processSurface tess nf opts acc srf) srfs

/-- `export_obj_str`: validity checks first (parametric dimension, then
vertex spacing — each `raise GeomdlError(...)` becomes `Except.error` with
the source's message), then the surface loop from empty accumulators, then
the final assembly `line += ...` in the order `str_v`, `str_vn`, `str_vp`,
`str_f` after the generator comment. -/
def export_obj_str (tess : Tess) (nf : NormalFn) (inp : SurfaceInput)
    (opts : ExportOpts) : Except String String :=
  if inp.pdimension ≠ 2 then Except.error "Can only export surfaces"
  else if opts.vertex_spacing < 1 then
    Except.error "Vertex spacing should be bigger than zero"
  else
    Except.ok ("# Generated by geomdl\n"
      ++ String.join (exportLoop tess nf opts ⟨[], [], [], [], 0⟩ inp.surfaces).str_v
      ++ String.join (exportLoop tess nf opts ⟨[], [], [], [], 0⟩ inp.surfaces).str_vn
      ++ String.join (exportLoop tess nf opts ⟨[], [], [], [], 0⟩ inp.surfaces).str_vp
      ++ String.join (exportLoop tess nf opts ⟨[], [], [], [], 0⟩ inp.surfaces).str_f)

/-! ### Specification-side block views of the export

These definitions regroup the export output per block, the way the spec
describes it; the theorems relate `export_obj_str` to them. -/

/-- The mesh the tessellator returns for one surface. -/
def meshOf (tess : Tess) (srf : Surface) : List MeshVertex × List MeshTriangle :=
  tess srf.evalpts srf.sample_size_u srf.sample_size_v

/-- All `v` lines, surface by surface. -/
def vBlock (tess : Tess) (srfs : List Surface) : List String :=
  (srfs.map (fun srf => ((meshOf tess srf).1).map vLine)).flatten

/-- All `vp` lines, surface by surface. -/
def vpBlock (tess : Tess) (srfs : List Surface) : List String :=
  (srfs.map (fun srf => ((meshOf tess srf).1).map vpLine)).flatten

/-- All `vn` lines, surface by surface. -/
def vnBlock (tess : Tess) (nf : NormalFn) (srfs : List Surface) : List String :=
  (srfs.map (fun srf => ((meshOf tess srf).1).map (vnLine nf srf))).flatten

/-- Total number of mesh vertices over a list of surfaces. -/
def totalVerts (tess : Tess) (srfs : List Surface) : Nat :=
  (srfs.map (fun srf => ((meshOf tess srf).1).length)).sum

/-- The 1-based global face-index triples: each surface's triangles shifted
by the running total of vertices emitted by the previous surfaces, the
offset starting at `off` and advanced by each surface's vertex count. -/
def gTriples (tess : Tess) : Nat → List Surface → List (Nat × Nat × Nat)
  | _, [] => []
  | off, srf :: srfs =>
    ((meshOf tess srf).2).map
        (fun t => (t.data.1 + 1 + off, t.data.2.1 + 1 + off, t.data.2.2 + 1 + off))
      ++ gTriples tess (off + ((meshOf tess srf).1).length) srfs

/-- Render one global face-index triple as its `f` line. -/
def renderFLine (p : Nat × Nat × Nat) : String :=
  "f " ++ toString p.1 ++ " " ++ toString p.2.1 ++ " " ++ toString p.2.2 ++ "\n"

/-- All `f` lines, with global 1-based indices, starting from offset `off`. -/
def fBlock (tess : Tess) (off : Nat) (srfs : List Surface) : List String :=
  (gTriples tess off srfs).map renderFLine

/-- The face indices occurring in a list of triples. -/
def tripleIdxs (l : List (Nat × Nat × Nat)) : List Nat :=
  (l.map (fun p => [p.1, p.2.1, p.2.2])).flatten

/-- Maximum of a list of naturals (0 when empty). -/
def maxNat (l : List Nat) : Nat :=
  l.foldr max 0

/-- A well-formed tessellated mesh: at least one vertex and one triangle,
every triangle index in range, and the last vertex referenced by some
triangle (a mesh that uses all its vertices satisfies this). -/
def MeshWF (m : List MeshVertex × List MeshTriangle) : Prop :=
  m.1 ≠ [] ∧ m.2 ≠ [] ∧
  (∀ t ∈ m.2, t.data.1 < m.1.length ∧ t.data.2.1 < m.1.length ∧ t.data.2.2 < m.1.length) ∧
  (∃ t ∈ m.2, t.data.1 = m.1.length - 1 ∨ t.data.2.1 = m.1.length - 1
    ∨ t.data.2.2 = m.1.length - 1)

instance (m : List MeshVertex × List MeshTriangle) : Decidable (MeshWF m) := by
  unfold MeshWF
  exact inferInstance

/-! ### Specification-side views of the import -/

/-- The leading token of a line, after stripping and tokenizing. -/
def lineHead (l : String) : String :=
  (lineTokens l).headD ""

/-- The vertex buffer a block of `v` lines builds, ids starting at `k`. -/
def vertsFrom (k : Nat) : List String → List Vertex
  | [] => []
  | l :: ls => ⟨k, (lineTokens l).tail⟩ :: vertsFrom (k + 1) ls

/-- The triangle buffer a block of `f` lines builds against a fixed vertex
buffer, ids starting at `k`; fails like the loop does. -/
def trisFrom (vs : List Vertex) (k : Nat) : List String → Except ImpErr (List Triangle)
  | [] => Except.ok []
  | l :: ls =>
    match resolveAll vs (lineTokens l).tail with
    | Except.error e => Except.error e
    | Except.ok rv =>
      match trisFrom vs (k + 1) ls with
      | Except.error e => Except.error e
      | Except.ok rest => Except.ok (⟨k, rv⟩ :: rest)

/-! ### Concrete data for witnesses -/

/-- A concrete tessellated mesh: 4 vertices, 2 triangles (the flat-surface
example of the spec's testable properties). -/
def meshW : List MeshVertex × List MeshTriangle :=
  ([⟨"0.0", "0.0", "0.0", ("0.0", "0.0")⟩, ⟨"1.0", "0.0", "0.0", ("1.0", "0.0")⟩,
    ⟨"0.0", "1.0", "0.0", ("0.0", "1.0")⟩, ⟨"1.0", "1.0", "0.0", ("1.0", "1.0")⟩],
   [⟨(0, 1, 2)⟩, ⟨(1, 3, 2)⟩])

/-- A concrete tessellator returning `meshW` for every surface. -/
def tessW : Tess := fun _ _ _ => meshW

/-- A concrete normal evaluator. -/
def nfW : NormalFn := fun _ _ => ("pt", ("0.0", "0.0", "1.0"))

/-- A concrete surface. -/
def srfW : Surface := ⟨[["0.0", "0.0", "0.0"]], 2, 2⟩

/-- A concrete surface input of parametric dimension 2. -/
def inpW : SurfaceInput := ⟨2, [srfW]⟩

/-- A concrete import loop state holding one buffered vertex. -/
def stW : ImpState :=
  { on_face := false, vertices := [⟨1, ["0", "0", "0"]⟩], triangles := []
    faces := [], vert_idx := 2, tri_idx := 1, face_idx := 1 }

/-! ### Helper lemmas: the import loop -/

lemma runLines_append (a b : List String) (st : ImpState) :
    runLines st (a ++ b) =
      match runLines st a with
      | Except.error e => Except.error e
      | Except.ok st' => runLines st' b := by
  induction a generalizing st with
  | nil => simp [runLines]
  | cons l ls ih =>
    simp only [List.cons_append, runLines]
    cases processLine st l with
    | error e => rfl
    | ok st' => exact ih st'

lemma processLine_v_notface (st : ImpState) (l : String)
    (hl : lineHead l = "v") (hof : st.on_face = false) :
    processLine st l = Except.ok { st with
      vertices := st.vertices ++ [⟨st.vert_idx, (lineTokens l).tail⟩]
      vert_idx := st.vert_idx + 1 } := by
  unfold lineHead at hl
  unfold processLine processTokens
  rw [hl, if_pos rfl]
  simp [appendVertex, hof]

lemma processLine_v_onface (st : ImpState) (l : String)
    (hl : lineHead l = "v") (hof : st.on_face = true) :
    processLine st l = Except.ok
      { on_face := false, vertices := [⟨1, (lineTokens l).tail⟩], triangles := []
        faces := st.faces ++ [⟨st.face_idx, st.triangles⟩]
        vert_idx := 2, tri_idx := 1, face_idx := st.face_idx + 1 } := by
  unfold lineHead at hl
  unfold processLine processTokens
  rw [hl, if_pos rfl]
  simp [appendVertex, finalizeFace, hof]

lemma processLine_f (st : ImpState) (l : String) (rv : List Vertex)
    (hl : lineHead l = "f")
    (hres : resolveAll st.vertices (lineTokens l).tail = Except.ok rv) :
    processLine st l = Except.ok { st with
      on_face := true
      triangles := st.triangles ++ [⟨st.tri_idx, rv⟩]
      tri_idx := st.tri_idx + 1 } := by
  unfold lineHead at hl
  unfold processLine processTokens
  rw [hl, if_neg (by decide : ¬("f" : String) = "v"), if_pos rfl, hres]

lemma runLines_vseg (ls : List String) (st : ImpState)
    (hof : st.on_face = false) (hv : ∀ l ∈ ls, lineHead l = "v") :
    runLines st ls = Except.ok { st with
      vertices := st.vertices ++ vertsFrom st.vert_idx ls
      vert_idx := st.vert_idx + ls.length } := by
  induction ls generalizing st with
  | nil => simp [runLines, vertsFrom]
  | cons l ls ih =>
    have h1 := processLine_v_notface st l (hv l (by simp)) hof
    simp only [runLines, h1]
    rw [ih { st with
        vertices := st.vertices ++ [⟨st.vert_idx, (lineTokens l).tail⟩]
        vert_idx := st.vert_idx + 1 } hof (fun x hx => hv x (by simp [hx]))]
    simp only [Except.ok.injEq, ImpState.mk.injEq, vertsFrom, List.append_assoc,
      List.cons_append, List.nil_append, List.length_cons]
    exact ⟨trivial, trivial, trivial, trivial, by omega, trivial, trivial⟩

lemma trisFrom_length (vs : List Vertex) (k : Nat) (ls : List String)
    (ts : List Triangle) (h : trisFrom vs k ls = Except.ok ts) :
    ts.length = ls.length := by
  induction ls generalizing k ts with
  | nil =>
    simp [trisFrom] at h
    simp [← h]
  | cons l ls ih =>
    unfold trisFrom at h
    cases hres : resolveAll vs (lineTokens l).tail with
    | error e => simp [hres] at h
    | ok rv =>
      simp only [hres] at h
      cases hrest : trisFrom vs (k + 1) ls with
      | error e => simp [hrest] at h
      | ok rest =>
        simp only [hrest] at h
        cases h
        simp [ih (k + 1) rest hrest]

lemma runLines_fseg (ls : List String) (st : ImpState) (ts : List Triangle)
    (hf : ∀ l ∈ ls, lineHead l = "f")
    (hb : trisFrom st.vertices st.tri_idx ls = Except.ok ts) :
    runLines st ls = Except.ok { st with
      on_face := st.on_face || !ls.isEmpty
      triangles := st.triangles ++ ts
      tri_idx := st.tri_idx + ls.length } := by
  induction ls generalizing st ts with
  | nil =>
    simp only [trisFrom, Except.ok.injEq] at hb
    subst hb
    simp [runLines]
  | cons l ls ih =>
    unfold trisFrom at hb
    cases hres : resolveAll st.vertices (lineTokens l).tail with
    | error e => simp [hres] at hb
    | ok rv =>
      simp only [hres] at hb
      cases hrest : trisFrom st.vertices (st.tri_idx + 1) ls with
      | error e => simp [hrest] at hb
      | ok rest =>
        simp only [hrest, Except.ok.injEq] at hb
        subst hb
        have h1 := processLine_f st l rv (hf l (by simp)) hres
        simp only [runLines, h1]
        rw [ih { st with
            on_face := true
            triangles := st.triangles ++ [⟨st.tri_idx, rv⟩]
            tri_idx := st.tri_idx + 1 } rest (fun x hx => hf x (by simp [hx])) hrest]
        simp only [Except.ok.injEq, ImpState.mk.injEq, List.append_assoc,
          List.cons_append, List.nil_append, List.isEmpty_cons, List.length_cons,
          Bool.not_false, Bool.or_true, Bool.true_or]
        exact ⟨trivial, trivial, trivial, trivial, trivial, by omega, trivial⟩

/-! ### Helper lemmas: the export loop -/

lemma totalVerts_cons (tess : Tess) (s : Surface) (ss : List Surface) :
    totalVerts tess (s :: ss) = ((meshOf tess s).1).length + totalVerts tess ss := by
  simp [totalVerts]

lemma map_fLine (off : Nat) (ts : List MeshTriangle) :
    ((ts.map (fun t => (t.data.1 + 1 + off, t.data.2.1 + 1 + off, t.data.2.2 + 1 + off))).map
      renderFLine) = ts.map (fLine off) := by
  rw [List.map_map]
  rfl

lemma exportLoop_spec (tess : Tess) (nf : NormalFn) (opts : ExportOpts)
    (ss : List Surface) (acc : ExpAcc) (hoff : acc.vertex_offset = acc.str_v.length) :
    exportLoop tess nf opts acc ss =
      { str_v := acc.str_v ++ vBlock tess ss
        str_vn := acc.str_vn ++ (if opts.vertex_normals then vnBlock tess nf ss else [])
        str_vp := acc.str_vp ++ (if opts.parametric_vertices then vpBlock tess ss else [])
        str_f := acc.str_f ++ fBlock tess acc.vertex_offset ss
        vertex_offset := acc.str_v.length + (vBlock tess ss).length } := by
  induction ss generalizing acc with
  | nil =>
    simp [exportLoop, vBlock, vpBlock, vnBlock, fBlock, gTriples, ← hoff]
  | cons s ss ih =>
    simp only [exportLoop]
    rw [ih (processSurface tess nf opts acc s) rfl]
    simp only [processSurface, ExpAcc.mk.injEq, meshOf]
    refine ⟨?_, ?_, ?_, ?_, ?_⟩
    · simp [vBlock, meshOf, List.append_assoc]
    · cases hvn : opts.vertex_normals <;> simp [vnBlock, meshOf, List.append_assoc]
    · cases hpv : opts.parametric_vertices <;> simp [vpBlock, meshOf, List.append_assoc]
    · simp only [fBlock, gTriples, List.map_append, map_fLine, meshOf, List.append_assoc,
        List.length_append, List.length_map]
      rw [hoff]
    · simp [vBlock, meshOf]
      omega

lemma maxNat_cons (x : Nat) (l : List Nat) : maxNat (x :: l) = max x (maxNat l) := rfl

lemma maxNat_append (a b : List Nat) : maxNat (a ++ b) = max (maxNat a) (maxNat b) := by
  induction a with
  | nil => simp [maxNat]
  | cons x xs ih =>
    simp only [List.cons_append, maxNat_cons, ih]
    rw [Nat.max_assoc]

lemma le_maxNat_of_mem {x : Nat} {l : List Nat} (h : x ∈ l) : x ≤ maxNat l := by
  induction l with
  | nil => cases h
  | cons y ys ih =>
    rcases List.mem_cons.mp h with h | h
    · subst h
      exact Nat.le_max_left _ _
    · exact Nat.le_trans (ih h) (Nat.le_max_right _ _)

lemma maxNat_le {l : List Nat} {B : Nat} (h : ∀ x ∈ l, x ≤ B) : maxNat l ≤ B := by
  induction l with
  | nil => exact Nat.zero_le B
  | cons y ys ih =>
    exact Nat.max_le.mpr ⟨h y (by simp), ih (fun x hx => h x (by simp [hx]))⟩

lemma maxNat_eq_of {l : List Nat} {B : Nat} (hle : ∀ x ∈ l, x ≤ B) (hmem : B ∈ l) :
    maxNat l = B :=
  Nat.le_antisymm (maxNat_le hle) (le_maxNat_of_mem hmem)

lemma tripleIdxs_append (a b : List (Nat × Nat × Nat)) :
    tripleIdxs (a ++ b) = tripleIdxs a ++ tripleIdxs b := by
  simp [tripleIdxs]

lemma maxNat_chunk (off vsn : Nat) (ts : List MeshTriangle)
    (hne : ts ≠ [])
    (hb : ∀ t ∈ ts, t.data.1 < vsn ∧ t.data.2.1 < vsn ∧ t.data.2.2 < vsn)
    (hatt : ∃ t ∈ ts, t.data.1 = vsn - 1 ∨ t.data.2.1 = vsn - 1 ∨ t.data.2.2 = vsn - 1) :
    maxNat (tripleIdxs (ts.map (fun t =>
      (t.data.1 + 1 + off, t.data.2.1 + 1 + off, t.data.2.2 + 1 + off)))) = vsn + off := by
  have hpos : 0 < vsn := by
    cases ts with
    | nil => exact absurd rfl hne
    | cons t ts' => exact Nat.lt_of_le_of_lt (Nat.zero_le _) (hb t (by simp)).1
  apply maxNat_eq_of
  · intro x hx
    simp only [tripleIdxs, List.map_map, List.mem_flatten, List.mem_map,
      Function.comp_apply] at hx
    obtain ⟨cs, ⟨t, ht, hcs⟩, hxcs⟩ := hx
    subst hcs
    have := hb t ht
    simp only [List.mem_cons, List.not_mem_nil, or_false] at hxcs
    rcases hxcs with h | h | h <;> omega
  · obtain ⟨t, ht, hc⟩ := hatt
    simp only [tripleIdxs, List.map_map, List.mem_flatten, List.mem_map,
      Function.comp_apply]
    refine ⟨_, ⟨t, ht, rfl⟩, ?_⟩
    simp only [List.mem_cons, List.not_mem_nil, or_false]
    rcases hc with h | h | h
    · exact Or.inl (by omega)
    · exact Or.inr (Or.inl (by omega))
    · exact Or.inr (Or.inr (by omega))

lemma maxNat_gTriples (tess : Tess) (ss : List Surface) (off : Nat)
    (hne : ss ≠ []) (hwf : ∀ s ∈ ss, MeshWF (meshOf tess s)) :
    maxNat (tripleIdxs (gTriples tess off ss)) = off + totalVerts tess ss := by
  induction ss generalizing off with
  | nil => exact absurd rfl hne
  | cons s ss ih =>
    obtain ⟨hv, htne, hb, hatt⟩ := hwf s (by simp)
    simp only [gTriples]
    rw [tripleIdxs_append, maxNat_append,
      maxNat_chunk off ((meshOf tess s).1).length ((meshOf tess s).2) htne hb hatt]
    cases ss with
    | nil =>
      simp [gTriples, tripleIdxs, maxNat, totalVerts]
      omega
    | cons s2 ss2 =>
      rw [ih (off + ((meshOf tess s).1).length) (by simp)
        (fun x hx => hwf x (by simp [hx]))]
      rw [max_eq_right (by omega :
        ((meshOf tess s).1).length + off
          ≤ off + ((meshOf tess s).1).length + totalVerts tess (s2 :: ss2))]
      simp only [totalVerts_cons]
      omega

/-! ### Helper lemmas: Python strip and tokenization -/

lemma dropWhile_append_all {p : Char → Bool} (a b : List Char)
    (ha : ∀ c ∈ a, p c = true) : (a ++ b).dropWhile p = b.dropWhile p := by
  induction a with
  | nil => simp
  | cons c cs ih =>
    simp only [List.cons_append, List.dropWhile_cons, ha c (by simp), if_true]
    exact ih (fun x hx => ha x (by simp [hx]))

lemma dropWhile_all {p : Char → Bool} (a : List Char)
    (ha : ∀ c ∈ a, p c = true) : a.dropWhile p = [] := by
  have h := dropWhile_append_all a [] ha
  simpa using h

lemma dropWhile_append_split {p : Char → Bool} (a b : List Char) :
    (a ++ b).dropWhile p =
      if a.dropWhile p = [] then b.dropWhile p else a.dropWhile p ++ b := by
  induction a with
  | nil => simp
  | cons c cs ih =>
    by_cases hc : p c
    · simp [List.dropWhile_cons, hc, ih]
    · simp [List.dropWhile_cons, hc]

lemma pyStripList_pad (w1 w2 l : List Char)
    (h1 : ∀ c ∈ w1, isPySpace c = true) (h2 : ∀ c ∈ w2, isPySpace c = true) :
    pyStripList (w1 ++ l ++ w2) = pyStripList l := by
  unfold pyStripList
  rw [List.append_assoc, dropWhile_append_all w1 (l ++ w2) h1,
    dropWhile_append_split l w2]
  by_cases hl : l.dropWhile isPySpace = []
  · rw [if_pos hl, hl, dropWhile_all w2 h2]
  · rw [if_neg hl, List.reverse_append,
      dropWhile_append_all w2.reverse (l.dropWhile isPySpace).reverse
        (fun c hc => h2 c (List.mem_reverse.mp hc))]

lemma lineTokens_pad (l : String) (w1 w2 : List Char)
    (h1 : ∀ c ∈ w1, isPySpace c = true) (h2 : ∀ c ∈ w2, isPySpace c = true) :
    lineTokens (String.mk (w1 ++ l.data ++ w2)) = lineTokens l := by
  unfold lineTokens
  rw [show (String.mk (w1 ++ l.data ++ w2)).data = w1 ++ l.data ++ w2 from rfl,
    pyStripList_pad w1 w2 l.data h1 h2]

lemma runLines_append_ok (a b : List String) (st st' : ImpState)
    (h : runLines st a = Except.ok st') :
    runLines st (a ++ b) = runLines st' b := by
  rw [runLines_append, h]

lemma runLines_cons_ok (l : String) (ls : List String) (st st' : ImpState)
    (h : processLine st l = Except.ok st') :
    runLines st (l :: ls) = runLines st' ls := by
  simp only [runLines, h]

/-! ## Claim theorems -/

/-- C1 (code behavior at the failing input): with a one-vertex buffer, the
`f`-line index token `0` does not fail the import — Python negative indexing
silently wraps it to the last vertex and a Face is returned — while the
too-large token `2` aborts with an `IndexError` exception, not a parse
error. -/
theorem c1_out_of_bounds_behavior : import_obj "v 0 0 0\nf 0 1 1\n" = Except.ok
      [⟨1, [⟨1, [⟨1, ["0", "0", "0"]⟩, ⟨1, ["0", "0", "0"]⟩, ⟨1, ["0", "0", "0"]⟩]⟩]⟩]
    ∧ import_obj "v 0 0 0\nf 2 1 1\n" = Except.error ImpErr.indexError :=
  ⟨rfl, rfl⟩

/-- C6: importing `"v 0 0 0\nv 1 0 0\nv 0 1 0\nf 1 2 3\n"` yields exactly one
Face containing exactly one Triangle referencing the three vertices in
order; and, in general, whenever the line loop ends with a non-empty
triangle buffer, one last Face wrapping that buffer is appended. -/
theorem c6_single_face_and_tail_finalize : import_obj "v 0 0 0\nv 1 0 0\nv 0 1 0\nf 1 2 3\n"
        = Except.ok [⟨1, [⟨1, [⟨1, ["0", "0", "0"]⟩, ⟨2, ["1", "0", "0"]⟩,
            ⟨3, ["0", "1", "0"]⟩]⟩]⟩]
    ∧ ∀ (ls : List String) (st : ImpState),
        runLines initImpState ls = Except.ok st → st.triangles ≠ [] →
        importLines ls = Except.ok (st.faces ++ [⟨st.face_idx, st.triangles⟩]) := by
  constructor
  · rfl
  · intro ls st h hne
    have he : st.triangles.isEmpty = false := by
      cases hts : st.triangles with
      | nil => exact absurd hts hne
      | cons a as => rfl
    unfold importLines
    rw [h]
    simp [he]

/-- Witness for C6's general tail-finalization part at a concrete input. -/
theorem c6_witness :
    runLines initImpState ["v 0 0 0", "f 1 1 1"] = Except.ok
      ⟨true, [⟨1, ["0", "0", "0"]⟩],
        [⟨1, [⟨1, ["0", "0", "0"]⟩, ⟨1, ["0", "0", "0"]⟩, ⟨1, ["0", "0", "0"]⟩]⟩],
        [], 2, 2, 1⟩
    ∧ ([⟨1, [⟨1, ["0", "0", "0"]⟩, ⟨1, ["0", "0", "0"]⟩, ⟨1, ["0", "0", "0"]⟩]⟩]
        : List Triangle) ≠ []
    ∧ importLines ["v 0 0 0", "f 1 1 1"] = Except.ok
        ([] ++ [⟨1, [⟨1, [⟨1, ["0", "0", "0"]⟩, ⟨1, ["0", "0", "0"]⟩,
          ⟨1, ["0", "0", "0"]⟩]⟩]⟩]) :=
  ⟨rfl, by decide,
   c6_single_face_and_tail_finalize.2 ["v 0 0 0", "f 1 1 1"]
     ⟨true, [⟨1, ["0", "0", "0"]⟩],
       [⟨1, [⟨1, ["0", "0", "0"]⟩, ⟨1, ["0", "0", "0"]⟩, ⟨1, ["0", "0", "0"]⟩]⟩],
       [], 2, 2, 1⟩ rfl (by decide)⟩

/-- C7 (amended): in an `f` line, the index token `0` is resolved without
error to the last vertex of the non-empty local buffer (Python negative
indexing); a negative token `-k`, however, resolves only while `k` is less
than the buffer length and raises `IndexError` once `k` reaches it. -/
theorem c7_wraparound_amended (st : ImpState) (h : st.vertices ≠ []) :
    processTokens st ["f", "0"] = Except.ok { st with
      on_face := true
      triangles := st.triangles ++ [⟨st.tri_idx, [st.vertices.getLast h]⟩]
      tri_idx := st.tri_idx + 1 }
    ∧ ∀ (k : Nat) (t : String), parsePyInt t = some (-(k : Int)) →
        st.vertices.length ≤ k →
        processTokens st ["f", t] = Except.error ImpErr.indexError := by
  have hlen : 0 < st.vertices.length := List.length_pos.mpr h
  constructor
  · have hget : st.vertices.get? (st.vertices.length - 1) = some (st.vertices.getLast h) := by
      rw [List.get?_eq_get (by omega : st.vertices.length - 1 < st.vertices.length)]
      congr 1
      rw [List.getLast_eq_getElem]
      rfl
    have hpi : pyIndex st.vertices (-1 : Int) = some (st.vertices.getLast h) := by
      unfold pyIndex
      rw [if_pos (by omega : (-1 : Int) < 0),
        if_neg (by omega : ¬((st.vertices.length : Int) + (-1 : Int) < 0)),
        show ((st.vertices.length : Int) + (-1 : Int)).toNat
          = st.vertices.length - 1 from by omega, hget]
    have hres : resolveAll st.vertices ["0"] = Except.ok [st.vertices.getLast h] := by
      simp [resolveAll, show parsePyInt "0" = some 0 from rfl, hpi]
    have hstep : processTokens st ["f", "0"] =
        (match resolveAll st.vertices ["0"] with
          | Except.error e => Except.error e
          | Except.ok rv =>
            Except.ok { st with on_face := true
                                triangles := st.triangles ++ [⟨st.tri_idx, rv⟩]
                                tri_idx := st.tri_idx + 1 }) := rfl
    rw [hstep, hres]
  · intro k t hpt hk
    have hpi : pyIndex st.vertices (-(k : Int) - 1) = none := by
      unfold pyIndex
      rw [if_pos (by omega : -(k : Int) - 1 < 0),
        if_pos (by omega : (st.vertices.length : Int) + (-(k : Int) - 1) < 0)]
    have hres : resolveAll st.vertices [t] = Except.error ImpErr.indexError := by
      simp [resolveAll, hpt, hpi]
    have hstep : processTokens st ["f", t] =
        (match resolveAll st.vertices [t] with
          | Except.error e => Except.error e
          | Except.ok rv =>
            Except.ok { st with on_face := true
                                triangles := st.triangles ++ [⟨st.tri_idx, rv⟩]
                                tri_idx := st.tri_idx + 1 }) := rfl
    rw [hstep, hres]

/-- Witness for C7's amended statement at a one-vertex buffer. -/
theorem c7_witness :
    processTokens stW ["f", "0"] = Except.ok { stW with
      on_face := true
      triangles := stW.triangles ++ [⟨stW.tri_idx, [stW.vertices.getLast (by decide)]⟩]
      tri_idx := stW.tri_idx + 1 }
    ∧ processTokens stW ["f", "-1"] = Except.error ImpErr.indexError :=
  ⟨(c7_wraparound_amended stW (by decide)).1,
   (c7_wraparound_amended stW (by decide)).2 1 "-1" (by decide) (by decide)⟩

/-- C7 (counterexample to the claim as stated): with a non-empty one-vertex
buffer, the negative index token `-1` does raise an error
(`vertices[-1 - 1]` is out of range), so a negative token does not always
resolve silently. -/
theorem c7_counterexample : import_obj "v 0 0 0\nf -1 1 1\n" = Except.error ImpErr.indexError :=
  rfl

/-- C8 (counterexample to the claim as stated): replacing the single spaces
of a `v` line and an `f` line by tabs changes the imported Face sequence —
the tokenizer splits on the single space character only, so the
tab-separated lines are not recognized and the import returns no faces. -/
theorem c8_counterexample : import_obj "v 0 0 0\nf 1 1 1\n" = Except.ok
      [⟨1, [⟨1, [⟨1, ["0", "0", "0"]⟩, ⟨1, ["0", "0", "0"]⟩, ⟨1, ["0", "0", "0"]⟩]⟩]⟩]
    ∧ import_obj "v\t0\t0\t0\nf\t1\t1\t1\n" = Except.ok [] :=
  ⟨rfl, rfl⟩

/-- C8 (amended): tokenization splits on the single space character after
stripping each line, so only leading and trailing whitespace of a line is
immaterial: padding every line with whitespace changes nothing, while
interior tabs or doubled spaces change the token list. -/
theorem c8_strip_invariance (ls : List String) (w1 w2 : List Char)
    (h1 : ∀ c ∈ w1, isPySpace c = true) (h2 : ∀ c ∈ w2, isPySpace c = true) :
    importLines (ls.map (fun l => String.mk (w1 ++ l.data ++ w2))) = importLines ls := by
  have hrun : ∀ st, runLines st (ls.map (fun l => String.mk (w1 ++ l.data ++ w2)))
      = runLines st ls := by
    induction ls with
    | nil => intro st; rfl
    | cons l ls ih =>
      intro st
      simp only [List.map_cons, runLines, processLine, lineTokens_pad l w1 w2 h1 h2]
      cases processTokens st (lineTokens l) with
      | error e => rfl
      | ok st' => exact ih st'
  unfold importLines
  rw [hrun]

/-- C5: an input made of a vertex block, a face block, a second vertex block
and a second face block imports to exactly two Faces in source order, with
ids 1 and 2; each Face's triangles are resolved against a vertex buffer
rebuilt from scratch with local ids starting at 1 and triangle ids starting
at 1, because the buffers and counters are reset when the second vertex
block begins. -/
theorem c5_two_blocks (V1 F1 V2 F2 : List String)
    (hV1 : ∀ l ∈ V1, lineHead l = "v") (hF1 : ∀ l ∈ F1, lineHead l = "f")
    (hV2 : ∀ l ∈ V2, lineHead l = "v") (hF2 : ∀ l ∈ F2, lineHead l = "f")
    (hF1n : F1 ≠ []) (hV2n : V2 ≠ []) (hF2n : F2 ≠ [])
    (t1 t2 : List Triangle)
    (ht1 : trisFrom (vertsFrom 1 V1) 1 F1 = Except.ok t1)
    (ht2 : trisFrom (vertsFrom 1 V2) 1 F2 = Except.ok t2) :
    importLines (V1 ++ F1 ++ V2 ++ F2) = Except.ok [⟨1, t1⟩, ⟨2, t2⟩] := by
  cases V2 with
  | nil => exact absurd rfl hV2n
  | cons v0 vr =>
    have hF1e : F1.isEmpty = false := by
      cases F1 with
      | nil => exact absurd rfl hF1n
      | cons a as => rfl
    have hF2e : F2.isEmpty = false := by
      cases F2 with
      | nil => exact absurd rfl hF2n
      | cons a as => rfl
    have hA : runLines initImpState V1 = Except.ok
        ⟨false, vertsFrom 1 V1, [], [], 1 + V1.length, 1, 1⟩ := by
      rw [runLines_vseg V1 initImpState rfl hV1]
      simp [initImpState]
    have hB : runLines ⟨false, vertsFrom 1 V1, [], [], 1 + V1.length, 1, 1⟩ F1
        = Except.ok ⟨true, vertsFrom 1 V1, t1, [], 1 + V1.length, 1 + F1.length, 1⟩ := by
      rw [runLines_fseg F1 _ t1 hF1 ht1]
      simp [hF1e]
    have hC : processLine ⟨true, vertsFrom 1 V1, t1, [], 1 + V1.length, 1 + F1.length, 1⟩ v0
        = Except.ok ⟨false, [⟨1, (lineTokens v0).tail⟩], [], [⟨1, t1⟩], 2, 1, 2⟩ := by
      rw [processLine_v_onface _ v0 (hV2 v0 (by simp)) rfl]
      simp
    have hD : runLines ⟨false, [⟨1, (lineTokens v0).tail⟩], [], [⟨1, t1⟩], 2, 1, 2⟩ vr
        = Except.ok ⟨false, vertsFrom 1 (v0 :: vr), [], [⟨1, t1⟩], 2 + vr.length, 1, 2⟩ := by
      rw [runLines_vseg vr _ rfl (fun x hx => hV2 x (by simp [hx]))]
      simp [vertsFrom]
    have hE : runLines ⟨false, vertsFrom 1 (v0 :: vr), [], [⟨1, t1⟩], 2 + vr.length, 1, 2⟩ F2
        = Except.ok ⟨true, vertsFrom 1 (v0 :: vr), t2, [⟨1, t1⟩],
            2 + vr.length, 1 + F2.length, 2⟩ := by
      rw [runLines_fseg F2 _ t2 hF2 ht2]
      simp [hF2e]
    have ht2len := trisFrom_length _ _ _ _ ht2
    have ht2e : t2.isEmpty = false := by
      cases hcc : t2 with
      | nil =>
        rw [hcc] at ht2len
        cases F2 with
        | nil => exact absurd rfl hF2n
        | cons a as => simp at ht2len
      | cons a as => rfl
    have hsplit : V1 ++ F1 ++ (v0 :: vr) ++ F2 = V1 ++ (F1 ++ (v0 :: (vr ++ F2))) := by
      simp [List.append_assoc]
    have hrun : runLines initImpState (V1 ++ F1 ++ (v0 :: vr) ++ F2) = Except.ok
        ⟨true, vertsFrom 1 (v0 :: vr), t2, [⟨1, t1⟩], 2 + vr.length, 1 + F2.length, 2⟩ := by
      rw [hsplit, runLines_append_ok V1 _ _ _ hA, runLines_append_ok F1 _ _ _ hB,
        runLines_cons_ok v0 _ _ _ hC, runLines_append_ok vr _ _ _ hD, hE]
    unfold importLines
    rw [hrun]
    simp [ht2e]

/-- Witness for C5 at two concrete one-line blocks. -/
theorem c5_witness :
    (∀ l ∈ ["v 0 0 0"], lineHead l = "v") ∧ (∀ l ∈ ["f 1 1 1"], lineHead l = "f")
    ∧ trisFrom (vertsFrom 1 ["v 0 0 0"]) 1 ["f 1 1 1"]
        = Except.ok [⟨1, [⟨1, ["0", "0", "0"]⟩, ⟨1, ["0", "0", "0"]⟩, ⟨1, ["0", "0", "0"]⟩]⟩]
    ∧ trisFrom (vertsFrom 1 ["v 1 1 1"]) 1 ["f 1 1 1"]
        = Except.ok [⟨1, [⟨1, ["1", "1", "1"]⟩, ⟨1, ["1", "1", "1"]⟩, ⟨1, ["1", "1", "1"]⟩]⟩]
    ∧ importLines (["v 0 0 0"] ++ ["f 1 1 1"] ++ ["v 1 1 1"] ++ ["f 1 1 1"])
        = Except.ok
          [⟨1, [⟨1, [⟨1, ["0", "0", "0"]⟩, ⟨1, ["0", "0", "0"]⟩, ⟨1, ["0", "0", "0"]⟩]⟩]⟩,
           ⟨2, [⟨1, [⟨1, ["1", "1", "1"]⟩, ⟨1, ["1", "1", "1"]⟩, ⟨1, ["1", "1", "1"]⟩]⟩]⟩] :=
  ⟨by decide, by decide, rfl, rfl,
   c5_two_blocks ["v 0 0 0"] ["f 1 1 1"] ["v 1 1 1"] ["f 1 1 1"]
     (by decide) (by decide) (by decide) (by decide)
     (by decide) (by decide) (by decide)
     [⟨1, [⟨1, ["0", "0", "0"]⟩, ⟨1, ["0", "0", "0"]⟩, ⟨1, ["0", "0", "0"]⟩]⟩]
     [⟨1, [⟨1, ["1", "1", "1"]⟩, ⟨1, ["1", "1", "1"]⟩, ⟨1, ["1", "1", "1"]⟩]⟩] rfl rfl⟩

/-- Witness for C8's amended statement: padding with a space and a tab. -/
theorem c8_witness :
    (∀ c ∈ [' '], isPySpace c = true) ∧ (∀ c ∈ ['\t'], isPySpace c = true)
    ∧ importLines (["v 0 0 0", "f 1 1 1"].map
        (fun l => String.mk ([' '] ++ l.data ++ ['\t'])))
      = importLines ["v 0 0 0", "f 1 1 1"] :=
  ⟨by decide, by decide,
   c8_strip_invariance ["v 0 0 0", "f 1 1 1"] [' '] ['\t'] (by decide) (by decide)⟩

/-- C2 (code behavior): the validated `vertex_spacing` option is never
passed to the tessellator — the call site hands it only the evaluated
points and the two sample counts — so two exports differing only in their
(valid) `vertex_spacing` produce identical output, for every tessellator. -/
theorem c2_spacing_not_passed (tess : Tess) (nf : NormalFn) (inp : SurfaceInput)
    (opts1 opts2 : ExportOpts)
    (h1 : 1 ≤ opts1.vertex_spacing) (h2 : 1 ≤ opts2.vertex_spacing)
    (hvn : opts1.vertex_normals = opts2.vertex_normals)
    (hpv : opts1.parametric_vertices = opts2.parametric_vertices) :
    export_obj_str tess nf inp opts1 = export_obj_str tess nf inp opts2 := by
  unfold export_obj_str
  by_cases hp : inp.pdimension ≠ 2
  · rw [if_pos hp, if_pos hp]
  · rw [if_neg hp, if_neg hp, if_neg (Int.not_lt.mpr h1), if_neg (Int.not_lt.mpr h2),
      exportLoop_spec tess nf opts1 inp.surfaces ⟨[], [], [], [], 0⟩ rfl,
      exportLoop_spec tess nf opts2 inp.surfaces ⟨[], [], [], [], 0⟩ rfl, hvn, hpv]

/-- Witness for C2: vertex spacing 1 versus 2, same flags. -/
theorem c2_witness :
    (1 : Int) ≤ (⟨1, false, false⟩ : ExportOpts).vertex_spacing
    ∧ (1 : Int) ≤ (⟨2, false, false⟩ : ExportOpts).vertex_spacing
    ∧ export_obj_str tessW nfW inpW ⟨1, false, false⟩
        = export_obj_str tessW nfW inpW ⟨2, false, false⟩ :=
  ⟨by decide, by decide,
   c2_spacing_not_passed tessW nfW inpW ⟨1, false, false⟩ ⟨2, false, false⟩
     (by decide) (by decide) rfl rfl⟩

/-- C4: a successful export is assembled in the strict order: generator
comment line, then the entire `v` block of all surfaces, then the entire
`vn` block, then the entire `vp` block, then the entire `f` block —
grouped globally, never interleaved per surface. -/
theorem c4_block_grouping (tess : Tess) (nf : NormalFn) (inp : SurfaceInput)
    (opts : ExportOpts) (h2 : inp.pdimension = 2) (hs : 1 ≤ opts.vertex_spacing) :
    export_obj_str tess nf inp opts = Except.ok ("# Generated by geomdl\n"
      ++ String.join (vBlock tess inp.surfaces)
      ++ String.join (if opts.vertex_normals then vnBlock tess nf inp.surfaces else [])
      ++ String.join (if opts.parametric_vertices then vpBlock tess inp.surfaces else [])
      ++ String.join (fBlock tess 0 inp.surfaces)) := by
  unfold export_obj_str
  rw [if_neg (not_not_intro h2), if_neg (Int.not_lt.mpr hs),
    exportLoop_spec tess nf opts inp.surfaces ⟨[], [], [], [], 0⟩ rfl]
  simp

/-- Witness for C4: one surface, all optional blocks on. -/
theorem c4_witness :
    inpW.pdimension = 2 ∧ (1 : Int) ≤ (⟨1, true, true⟩ : ExportOpts).vertex_spacing
    ∧ export_obj_str tessW nfW inpW ⟨1, true, true⟩ = Except.ok ("# Generated by geomdl\n"
        ++ String.join (vBlock tessW inpW.surfaces)
        ++ String.join (if (⟨1, true, true⟩ : ExportOpts).vertex_normals then
            vnBlock tessW nfW inpW.surfaces else [])
        ++ String.join (if (⟨1, true, true⟩ : ExportOpts).parametric_vertices then
            vpBlock tessW inpW.surfaces else [])
        ++ String.join (fBlock tessW 0 inpW.surfaces)) :=
  ⟨rfl, by decide, c4_block_grouping tessW nfW inpW ⟨1, true, true⟩ rfl (by decide)⟩

/-- C3: the exported face lines are exactly the triangles of each surface
rendered as `f (i+1+offset) (j+1+offset) (k+1+offset)`, the offset being
the running total of vertices emitted by the previously processed surfaces
(starting at 0 and advanced by each surface's vertex count, which is what
`vertex_offset = len(str_v)` computes); and for well-formed meshes the
maximum face index in the output equals the total vertex count over all
surfaces. -/
theorem c3_face_index_offsets (tess : Tess) (nf : NormalFn) (inp : SurfaceInput)
    (opts : ExportOpts) (h2 : inp.pdimension = 2) (hs : 1 ≤ opts.vertex_spacing)
    (hne : inp.surfaces ≠ [])
    (hwf : ∀ s ∈ inp.surfaces, MeshWF (meshOf tess s)) :
    (∃ pre, export_obj_str tess nf inp opts
        = Except.ok (pre ++ String.join ((gTriples tess 0 inp.surfaces).map renderFLine)))
    ∧ maxNat (tripleIdxs (gTriples tess 0 inp.surfaces)) = totalVerts tess inp.surfaces := by
  constructor
  · refine ⟨"# Generated by geomdl\n"
      ++ String.join (vBlock tess inp.surfaces)
      ++ String.join (if opts.vertex_normals then vnBlock tess nf inp.surfaces else [])
      ++ String.join (if opts.parametric_vertices then vpBlock tess inp.surfaces else []), ?_⟩
    unfold export_obj_str
    rw [if_neg (not_not_intro h2), if_neg (Int.not_lt.mpr hs),
      exportLoop_spec tess nf opts inp.surfaces ⟨[], [], [], [], 0⟩ rfl]
    simp [fBlock, String.append_assoc]
  · have hmax := maxNat_gTriples tess inp.surfaces 0 hne hwf
    simpa using hmax

/-- Witness for C3: one surface with the 4-vertex, 2-triangle mesh. -/
theorem c3_witness :
    inpW.pdimension = 2 ∧ (1 : Int) ≤ (⟨1, false, false⟩ : ExportOpts).vertex_spacing
    ∧ inpW.surfaces ≠ [] ∧ (∀ s ∈ inpW.surfaces, MeshWF (meshOf tessW s))
    ∧ ((∃ pre, export_obj_str tessW nfW inpW ⟨1, false, false⟩
          = Except.ok (pre ++ String.join ((gTriples tessW 0 inpW.surfaces).map renderFLine)))
      ∧ maxNat (tripleIdxs (gTriples tessW 0 inpW.surfaces)) = totalVerts tessW inpW.surfaces) :=
  ⟨rfl, by decide, by decide, by decide,
   c3_face_index_offsets tessW nfW inpW ⟨1, false, false⟩ rfl (by decide) (by decide)
     (by decide)⟩

/-- C9: a `vertex_spacing` below 1 makes the export fail with a
`GeomdlError` (the spec's `ValidationError`), and the failure is decided
before any surface is processed: the result does not depend on the
tessellator or the normal evaluator, and no output text is produced. -/
theorem c9_eager_spacing_validation (tess : Tess) (nf : NormalFn) (inp : SurfaceInput)
    (opts : ExportOpts) (h : opts.vertex_spacing < 1) :
    (∃ msg, export_obj_str tess nf inp opts = Except.error msg)
    ∧ ∀ (tess2 : Tess) (nf2 : NormalFn),
        export_obj_str tess nf inp opts = export_obj_str tess2 nf2 inp opts := by
  unfold export_obj_str
  by_cases hp : inp.pdimension ≠ 2
  · exact ⟨⟨"Can only export surfaces", by rw [if_pos hp]⟩,
      fun t2 n2 => by rw [if_pos hp, if_pos hp]⟩
  · constructor
    · exact ⟨"Vertex spacing should be bigger than zero",
        by rw [if_neg hp, if_pos h]⟩
    · intro t2 n2
      rw [if_neg hp, if_neg hp, if_pos h, if_pos h]

/-- Witness for C9 at vertex spacing 0. -/
theorem c9_witness :
    (⟨0, false, false⟩ : ExportOpts).vertex_spacing < 1
    ∧ ((∃ msg, export_obj_str tessW nfW inpW ⟨0, false, false⟩ = Except.error msg)
      ∧ ∀ (tess2 : Tess) (nf2 : NormalFn),
          export_obj_str tessW nfW inpW ⟨0, false, false⟩
            = export_obj_str tess2 nf2 inpW ⟨0, false, false⟩) :=
  ⟨by decide, c9_eager_spacing_validation tessW nfW inpW ⟨0, false, false⟩ (by decide)⟩

/-- C10 (counterexample to the claim as stated): exporting a non-surface
input raises the `GeomdlError` whose message is `"Can only export
surfaces"`, not the message `"surfaces only"` the claim quotes. -/
theorem c10_counterexample :
    export_obj_str tessW nfW ⟨1, [srfW]⟩ ⟨1, false, false⟩
      = Except.error "Can only export surfaces"
    ∧ "Can only export surfaces" ≠ "surfaces only" :=
  ⟨rfl, by decide⟩

/-- C10 (amended): an input whose parametric dimension is not 2 makes the
export fail with the `GeomdlError` message `"Can only export surfaces"`,
for every tessellator and normal evaluator — so the check precedes any
surface processing. -/
theorem c10_surfaces_only (tess : Tess) (nf : NormalFn) (inp : SurfaceInput)
    (opts : ExportOpts) (h : inp.pdimension ≠ 2) :
    export_obj_str tess nf inp opts = Except.error "Can only export surfaces"
    ∧ ∀ (tess2 : Tess) (nf2 : NormalFn),
        export_obj_str tess2 nf2 inp opts = Except.error "Can only export surfaces" := by
  constructor
  · unfold export_obj_str
    rw [if_pos h]
  · intro t2 n2
    unfold export_obj_str
    rw [if_pos h]

/-- Witness for C10's amended statement: a 1-parameter (curve-like) input. -/
theorem c10_witness :
    (⟨1, [srfW]⟩ : SurfaceInput).pdimension ≠ 2
    ∧ (export_obj_str tessW nfW ⟨1, [srfW]⟩ ⟨1, true, false⟩
        = Except.error "Can only export surfaces"
      ∧ ∀ (tess2 : Tess) (nf2 : NormalFn),
          export_obj_str tess2 nf2 ⟨1, [srfW]⟩ ⟨1, true, false⟩
            = Except.error "Can only export surfaces") :=
  ⟨by decide, c10_surfaces_only tessW nfW ⟨1, [srfW]⟩ ⟨1, true, false⟩ (by decide)⟩

end ObjExchange
